import Mathlib

/-!
Shallow embedding of `src/image_generator.py` (Nova Canvas workshop batch
image generator) and a verification of the specification's claims about it.

Modelling conventions:
* The remote endpoint (`boto3` client + `invoke_model` + `json.loads` of the
  response body) is an external collaborator.  It is modelled as a function
  `Provider : Nat → RequestBody → Except String ResponseBody`: given the
  number of calls made so far (so that distinct calls of one run may behave
  differently) and the request payload, it either raises (`Except.error msg`,
  standing for any transport/provider exception, `msg` its stringification)
  or returns the parsed response body.
* `base64.b64decode` is external; it is modelled as an arbitrary total
  function `Decoder : String → List Nat` from base64 text to bytes.
* Observable side effects are threaded through a `World` state: `trace` is
  the ordered log of network-call attempts and `time.sleep` suspensions,
  `writes` the ordered log of file writes (path, bytes).  Console output is
  not modelled.  `os.makedirs` in `__init__` (idempotent directory creation)
  is out of the claims' scope and not modelled.
* Python numbers: widths/heights/seeds are `Int`, `cfg_scale` (a float that
  is only ever passed through, never computed with) is `Rat`, and the sleep
  duration is `Nat` seconds.
-/

namespace NovaCanvas

/-- Scalar JSON values occurring in the `imageGenerationConfig` dict of the
request body built at `image_generator.py:35-51`. -/
inductive ConfigValue where
  | n : Int → ConfigValue
  | s : String → ConfigValue
  | f : Rat → ConfigValue
deriving DecidableEq

/-- The `textToImageParams` block of the request body. -/
structure TextToImageParams where
  text : String
deriving DecidableEq

/-- The provider request payload (`request_body` at `image_generator.py:35-51`).
The `imageGenerationConfig` dict is an insertion-ordered association list,
matching Python dict semantics (the optional `seed` entry is appended last). -/
structure RequestBody where
  taskType : String
  textToImageParams : TextToImageParams
  imageGenerationConfig : List (String × ConfigValue)
deriving DecidableEq

/-- Request-body construction, `image_generator.py:35-51`: the base dict is
built, then `seed` is added to `imageGenerationConfig` only when supplied. -/
def requestBody (prompt : String) (width height : Int) (cfg_scale : Rat)
    (seed : Option Int) : RequestBody :=
  let base : List (String × ConfigValue) :=
    [("numberOfImages", ConfigValue.n 1),
     ("quality", ConfigValue.s "premium"),
     ("width", ConfigValue.n width),
     ("height", ConfigValue.n height),
     ("cfgScale", ConfigValue.f cfg_scale)]
  let config : List (String × ConfigValue) :=
    match seed with
    | some sd => base ++ [("seed", ConfigValue.n sd)]
    | none => base
  { taskType := "TEXT_IMAGE"
    textToImageParams := { text := prompt }
    imageGenerationConfig := config }

/-- The parsed response body (`response_body` at `image_generator.py:64`):
`images` is `none` when the key is absent, otherwise the list of base64
strings under the key. -/
structure ResponseBody where
  images : Option (List String)
deriving DecidableEq

/-- The external endpoint: call index and payload to raised-error-or-response. -/
abbrev Provider := Nat → RequestBody → Except String ResponseBody

/-- External `base64.b64decode`: base64 text to bytes. -/
abbrev Decoder := String → List Nat

/-- One observable event: a network-call attempt carrying its payload, or a
`time.sleep` suspension carrying its duration in seconds. -/
inductive Event where
  | call : RequestBody → Event
  | sleep : Nat → Event
deriving DecidableEq

/-- Observable state threaded through the run: the event trace and the file
write log (path, written bytes), both in chronological order. -/
structure World where
  trace : List Event
  writes : List (String × List Nat)
deriving DecidableEq

/-- The empty initial world. -/
def World.init : World := ⟨[], []⟩

/-- The payloads of the network-call attempts of a trace, in order. -/
def callPayloads (tr : List Event) : List RequestBody :=
  tr.filterMap fun e =>
    match e with
    | Event.call r => some r
    | Event.sleep _ => none

/-- `self.output_dir`, fixed to `'images'` at `image_generator.py:18`. -/
def output_dir : String := "images"

/-- `os.path.join(self.output_dir, filename + ".png")`, `image_generator.py:71`. -/
def outPath (filename : String) : String := output_dir ++ "/" ++ filename ++ ".png"

/-- `NovaCanvasImageGenerator.generate_image`, `image_generator.py:21-83`.
Builds the request body, attempts one endpoint call (always logged, even when
the call raises), and inside the single `try`:
* on a raised exception, returns `None` (the `except` at lines 81-83);
* on a response whose `images` key holds a non-empty list, decodes the first
  entry, writes it to `images/<filename>.png` and returns that path
  (lines 66-76);
* otherwise (key absent, or present but empty) returns `None` (lines 77-79). -/
def generate_image (provider : Provider) (decode : Decoder)
    (prompt filename : String) (width height : Int) (cfg_scale : Rat)
    (seed : Option Int) (st : World) : Option String × World :=
  let body := requestBody prompt width height cfg_scale seed
  let st1 : World := { st with trace := st.trace ++ [Event.call body] }
  match provider (callPayloads st.trace).length body with
  | Except.error _ => (none, st1)
  | Except.ok resp =>
    match resp.images with
    | some (img :: _) =>
      (some (outPath filename),
       { st1 with writes := st1.writes ++ [(outPath filename, decode img)] })
    | some [] => (none, st1)
    | none => (none, st1)

/-- One entry of the fixed workshop job table, `image_generator.py:89-140`. -/
structure PromptData where
  filename : String
  prompt : String
  description : String
deriving DecidableEq

/-- The fixed ten-entry workshop job list, `image_generator.py:89-140`. -/
def prompts : List PromptData :=
  [{ filename := "01_basic_white_tshirt",
     prompt := "A clean white cotton t-shirt on a plain white background, front view, no wrinkles, studio lighting, product photography style, minimalist, high resolution",
     description := "Basic solid color t-shirt" },
   { filename := "02_striped_longsleeve",
     prompt := "A navy blue and white horizontal striped long-sleeve shirt, crew neck, regular fit, laid flat on white background, professional product photo, even lighting",
     description := "Striped long-sleeve shirt" },
   { filename := "03_checkered_buttonup",
     prompt := "A red and black checkered flannel button-up shirt, classic collar, long sleeves, regular fit, hanging on white background, studio photography",
     description := "Checkered button-up shirt" },
   { filename := "04_oversized_hoodie",
     prompt := "An oversized gray hoodie sweatshirt with hood up, loose fit, kangaroo pocket, long sleeves, on plain background, casual streetwear style",
     description := "Oversized hoodie" },
   { filename := "05_floral_blouse",
     prompt := "A light pink blouse with small white floral pattern, V-neck, short sleeves, fitted silhouette, on white background, feminine style, soft lighting",
     description := "Floral print blouse" },
   { filename := "06_vintage_band_tshirt",
     prompt := "A black vintage-style band t-shirt with distressed graphic print, crew neck, short sleeves, slightly faded, relaxed fit, on neutral background",
     description := "Vintage band t-shirt" },
   { filename := "07_formal_dress_shirt",
     prompt := "A crisp white formal dress shirt, French cuffs, spread collar, long sleeves, slim fit, pressed and neat, professional product photography",
     description := "Formal dress shirt" },
   { filename := "08_crop_top",
     prompt := "A bright yellow crop top, sleeveless, scoop neckline, fitted style, modern casual wear, on clean white background, good lighting",
     description := "Crop top" },
   { filename := "09_turtleneck_sweater",
     prompt := "A burgundy turtleneck sweater, long sleeves, fitted silhouette, ribbed texture, fall/winter style, on neutral background, cozy aesthetic",
     description := "Turtleneck sweater" },
   { filename := "10_tiedye_tshirt",
     prompt := "A tie-dye t-shirt with rainbow spiral pattern, crew neck, short sleeves, regular fit, vibrant colors, casual hippie style, bright lighting",
     description := "Tie-dye t-shirt" }]

/-- The payload a batch job is sent with (`image_generator.py:152-156`: the
loop calls `generate_image` with the job's prompt, default width 1024,
height 1024, cfg_scale 8.0, and the fixed `seed=42`). -/
def jobPayload (j : PromptData) : RequestBody :=
  requestBody j.prompt 1024 1024 8 (some 42)

/-- The loop body of `generate_workshop_images`, `image_generator.py:149-166`,
recursing over the remaining job list; `i` is the 1-based index of the current
job (`enumerate(prompts, 1)`) and `total` is `len(prompts)`.  Each job runs
`generate_image` (prompt, filename, seed=42, remaining arguments at their
defaults), increments exactly one counter according to the truthiness of the
result, and sleeps `delay_seconds` whenever `i < total`. -/
def runJobs (provider : Provider) (decode : Decoder) (delay_seconds : Nat)
    (total : Nat) :
    List PromptData → Nat → Nat → Nat → World → (Nat × Nat) × World
  | [], _i, succ, fail, st => ((succ, fail), st)
  | j :: rest, i, succ, fail, st =>
    let r := generate_image provider decode j.prompt j.filename 1024 1024 8 (some 42) st
    runJobs provider decode delay_seconds total rest (i + 1)
      (if r.1.isSome then succ + 1 else succ)
      (if r.1.isSome then fail else fail + 1)
      (if i < total then { r.2 with trace := r.2.trace ++ [Event.sleep delay_seconds] }
       else r.2)

/-- The batch loop of `image_generator.py:146-174` run over an arbitrary job
list (counters start at 0, the index at 1, `total = len(jobs)`); the final
counter pair is the returned `(successful_generations, failed_generations)`. -/
def runBatch (provider : Provider) (decode : Decoder) (delay_seconds : Nat)
    (jobs : List PromptData) (st : World) : (Nat × Nat) × World :=
  runJobs provider decode delay_seconds jobs.length jobs 1 0 0 st

/-- `NovaCanvasImageGenerator.generate_workshop_images`,
`image_generator.py:85-174`: the batch loop applied to the fixed job list. -/
def generate_workshop_images (provider : Provider) (decode : Decoder)
    (delay_seconds : Nat) (st : World) : (Nat × Nat) × World :=
  runBatch provider decode delay_seconds prompts st

/-- `NovaCanvasImageGenerator.generate_single_test_image`,
`image_generator.py:176-192`: one `generate_image` call with the test prompt,
filename `test_shirt`, `seed=123`; returns `True` exactly when a path came
back. -/
def generate_single_test_image (provider : Provider) (decode : Decoder)
    (st : World) : Bool × World :=
  let r := generate_image provider decode
    "A simple red t-shirt on white background, product photography"
    "test_shirt" 1024 1024 8 (some 123) st
  (r.1.isSome, r.2)

/-- `main`, `image_generator.py:194-230`.  `init` models the
`NovaCanvasImageGenerator()` construction (`boto3` client creation): on a
raised exception `main` logs and returns before any job.  `choice` is the
stripped interactive input; choice `"3"` runs the full batch only when the
test generation returned `True` (the `Press Enter` prompt is an external
interactive detail that always proceeds).  Any other input does nothing. -/
def main (init : Except String Unit) (provider : Provider) (decode : Decoder)
    (choice : String) (st : World) : World :=
  match init with
  | Except.error _ => st
  | Except.ok _ =>
    if choice = "1" then (generate_single_test_image provider decode st).2
    else if choice = "2" then (generate_workshop_images provider decode 2 st).2
    else if choice = "3" then
      let r := generate_single_test_image provider decode st
      if r.1 then (generate_workshop_images provider decode 2 r.2).2 else r.2
    else st

/-- The specification's `GenerationOutcome`: `Success{bytes}`, `Empty`, or
`Failure{reason}`. -/
inductive GenerationOutcome where
  | success : List Nat → GenerationOutcome
  | empty : GenerationOutcome
  | failure : String → GenerationOutcome
deriving DecidableEq

namespace SpecModel

/-- Spec-side model of `GenerationClient.generate` (section 4.1): builds the
payload, performs the one call, and classifies the outcome, with no storage
write.  A response whose `images` key is absent is classified `empty`, as the
source's lines 66/77-79 treat it identically to a present-but-empty list.
Compared against the source's `generate_image` by refinement. -/
def generate (provider : Provider) (decode : Decoder) (prompt : String)
    (width height : Int) (cfg_scale : Rat) (seed : Option Int) (st : World) :
    GenerationOutcome × World :=
  let body := requestBody prompt width height cfg_scale seed
  let st1 : World := { st with trace := st.trace ++ [Event.call body] }
  match provider (callPayloads st.trace).length body with
  | Except.error e => (GenerationOutcome.failure e, st1)
  | Except.ok resp =>
    match resp.images with
    | some (img :: _) => (GenerationOutcome.success (decode img), st1)
    | some [] => (GenerationOutcome.empty, st1)
    | none => (GenerationOutcome.empty, st1)

/-- Spec-side model of `BatchRunner.runSingle` (section 4.2): one
`GenerationClient.generate` call; on `Success` persists the bytes to
`<outputDir>/<outputName>.png` and returns the path, otherwise returns the
failure marker `none` and performs no write.  Compared against the source's
`generate_image` by refinement. -/
def runSingle (provider : Provider) (decode : Decoder)
    (prompt filename : String) (width height : Int) (cfg_scale : Rat)
    (seed : Option Int) (st : World) : Option String × World :=
  match generate provider decode prompt width height cfg_scale seed st with
  | (GenerationOutcome.success data, st1) =>
    (some (outPath filename),
     { st1 with writes := st1.writes ++ [(outPath filename, data)] })
  | (GenerationOutcome.empty, st1) => (none, st1)
  | (GenerationOutcome.failure _, st1) => (none, st1)

end SpecModel

/-- The event trace produced by the batch loop over a remaining job list
starting at 1-based index `i` with `total` jobs overall: one call attempt per
job, followed by a sleep exactly when `i < total`. -/
def traceFrom (delay_seconds total : Nat) : List PromptData → Nat → List Event
  | [], _ => []
  | j :: rest, i =>
    Event.call (jobPayload j)
      :: ((if i < total then [Event.sleep delay_seconds] else [])
          ++ traceFrom delay_seconds total rest (i + 1))

/-- Stub provider whose every call raises, for concrete instantiations. -/
def raisingProvider : Provider := fun _ _ => Except.error "AccessDeniedException"

/-- Stub provider whose every call returns a well-formed response with an
empty image list, for concrete instantiations. -/
def emptyImagesProvider : Provider := fun _ _ => Except.ok ⟨some []⟩

/-- Stub provider whose every call returns one base64 image `"QQ=="`. -/
def okProvider : Provider := fun _ _ => Except.ok ⟨some ["QQ=="]⟩

/-- Stub decoder mapping every base64 text to a fixed one-byte payload. -/
def stubDecoder : Decoder := fun _ => [65]

/-- A small three-job list for concrete instantiations. -/
def jobs3 : List PromptData :=
  [{ filename := "a", prompt := "x", description := "job a" },
   { filename := "b", prompt := "y", description := "job b" },
   { filename := "c", prompt := "z", description := "job c" }]

/-! ### Helper lemmas -/

theorem callPayloads_append (a b : List Event) :
    callPayloads (a ++ b) = callPayloads a ++ callPayloads b := by
  simp [callPayloads, List.filterMap_append]

theorem callPayloads_call (r : RequestBody) :
    callPayloads [Event.call r] = [r] := rfl

theorem callPayloads_nil : callPayloads [] = [] := rfl

theorem callPayloads_cons_call (r : RequestBody) (l : List Event) :
    callPayloads (Event.call r :: l) = r :: callPayloads l := rfl

theorem callPayloads_cons_sleep (d : Nat) (l : List Event) :
    callPayloads (Event.sleep d :: l) = callPayloads l := rfl

theorem callPayloads_sleep (d : Nat) :
    callPayloads [Event.sleep d] = [] := rfl

/-- On a raised provider exception, `generate_image` returns `None` and only
the call attempt is logged: no write occurs. -/
theorem generate_image_error (provider : Provider) (decode : Decoder)
    (prompt filename : String) (width height : Int) (cfg_scale : Rat)
    (seed : Option Int) (st : World) (msg : String)
    (he : provider (callPayloads st.trace).length
        (requestBody prompt width height cfg_scale seed) = Except.error msg) :
    generate_image provider decode prompt filename width height cfg_scale seed st
      = (none, { st with trace :=
          st.trace ++ [Event.call (requestBody prompt width height cfg_scale seed)] }) := by
  simp only [generate_image, he]

/-- On a well-formed response with an empty image list, `generate_image`
returns `None` and performs no write. -/
theorem generate_image_emptyImages (provider : Provider) (decode : Decoder)
    (prompt filename : String) (width height : Int) (cfg_scale : Rat)
    (seed : Option Int) (st : World)
    (he : provider (callPayloads st.trace).length
        (requestBody prompt width height cfg_scale seed)
        = Except.ok ⟨some []⟩) :
    generate_image provider decode prompt filename width height cfg_scale seed st
      = (none, { st with trace :=
          st.trace ++ [Event.call (requestBody prompt width height cfg_scale seed)] }) := by
  simp only [generate_image, he]

/-- On a response with a non-empty image list, `generate_image` decodes the
first entry, writes it to `images/<filename>.png` and returns that path. -/
theorem generate_image_success (provider : Provider) (decode : Decoder)
    (prompt filename : String) (width height : Int) (cfg_scale : Rat)
    (seed : Option Int) (st : World) (img : String) (rest : List String)
    (he : provider (callPayloads st.trace).length
        (requestBody prompt width height cfg_scale seed)
        = Except.ok ⟨some (img :: rest)⟩) :
    generate_image provider decode prompt filename width height cfg_scale seed st
      = (some (outPath filename),
         { trace := st.trace ++ [Event.call (requestBody prompt width height cfg_scale seed)],
           writes := st.writes ++ [(outPath filename, decode img)] }) := by
  simp only [generate_image, he]

/-- On a response whose `images` key is absent, `generate_image` returns
`None` and performs no write. -/
theorem generate_image_noImagesKey (provider : Provider) (decode : Decoder)
    (prompt filename : String) (width height : Int) (cfg_scale : Rat)
    (seed : Option Int) (st : World)
    (he : provider (callPayloads st.trace).length
        (requestBody prompt width height cfg_scale seed)
        = Except.ok ⟨none⟩) :
    generate_image provider decode prompt filename width height cfg_scale seed st
      = (none, { st with trace :=
          st.trace ++ [Event.call (requestBody prompt width height cfg_scale seed)] }) := by
  simp only [generate_image, he]

/-- `generate_image` always logs exactly one call attempt, whatever the
provider does. -/
theorem generate_image_trace (provider : Provider) (decode : Decoder)
    (prompt filename : String) (width height : Int) (cfg_scale : Rat)
    (seed : Option Int) (st : World) :
    (generate_image provider decode prompt filename width height cfg_scale seed st).2.trace
      = st.trace ++ [Event.call (requestBody prompt width height cfg_scale seed)] := by
  rcases h : provider (callPayloads st.trace).length
      (requestBody prompt width height cfg_scale seed) with msg | ⟨images⟩
  · rw [generate_image_error provider decode prompt filename width height cfg_scale seed st msg h]
  · rcases images with _ | (_ | ⟨img, rest⟩)
    · rw [generate_image_noImagesKey provider decode prompt filename width height cfg_scale seed st h]
    · rw [generate_image_emptyImages provider decode prompt filename width height cfg_scale seed st h]
    · rw [generate_image_success provider decode prompt filename width height cfg_scale seed st img rest h]

/-- The spec-side `runSingle` (client call, classify, persist on success)
computes exactly the source's `generate_image`. -/
theorem runSingle_eq_generate_image (provider : Provider) (decode : Decoder)
    (prompt filename : String) (width height : Int) (cfg_scale : Rat)
    (seed : Option Int) (st : World) :
    SpecModel.runSingle provider decode prompt filename width height cfg_scale seed st
      = generate_image provider decode prompt filename width height cfg_scale seed st := by
  rcases h : provider (callPayloads st.trace).length
      (requestBody prompt width height cfg_scale seed) with msg | ⟨images⟩
  · simp only [SpecModel.runSingle, SpecModel.generate, generate_image, h]
  · rcases images with _ | (_ | ⟨img, rest⟩) <;>
      simp only [SpecModel.runSingle, SpecModel.generate, generate_image, h]

/-- The batch loop's success/failure counters always add up to the starting
totals plus the number of remaining jobs. -/
theorem runJobs_counts (provider : Provider) (decode : Decoder)
    (delay_seconds total : Nat) :
    ∀ (jobs : List PromptData) (i succ fail : Nat) (st : World),
      (runJobs provider decode delay_seconds total jobs i succ fail st).1.1
        + (runJobs provider decode delay_seconds total jobs i succ fail st).1.2
        = succ + fail + jobs.length := by
  intro jobs
  induction jobs with
  | nil => intro i succ fail st; simp [runJobs]
  | cons j rest ih =>
    intro i succ fail st
    simp only [runJobs]
    cases hr : (generate_image provider decode j.prompt j.filename 1024 1024 8
        (some 42) st).1.isSome <;>
      simp [hr, ih] <;> omega

/-- The batch loop appends exactly the events described by `traceFrom`:
one call per job, a sleep after each job whose index is below the total. -/
theorem runJobs_trace (provider : Provider) (decode : Decoder)
    (delay_seconds total : Nat) :
    ∀ (jobs : List PromptData) (i succ fail : Nat) (st : World),
      (runJobs provider decode delay_seconds total jobs i succ fail st).2.trace
        = st.trace ++ traceFrom delay_seconds total jobs i := by
  intro jobs
  induction jobs with
  | nil => intro i succ fail st; simp [runJobs, traceFrom]
  | cons j rest ih =>
    intro i succ fail st
    simp only [runJobs, traceFrom]
    rw [ih]
    by_cases hi : i < total <;>
      simp [hi, generate_image_trace, jobPayload]

/-- The call payloads of a `traceFrom` trace are the job payloads in order. -/
theorem traceFrom_calls (delay_seconds total : Nat) :
    ∀ (jobs : List PromptData) (i : Nat),
      callPayloads (traceFrom delay_seconds total jobs i) = jobs.map jobPayload := by
  intro jobs
  induction jobs with
  | nil => intro i; simp [traceFrom, callPayloads]
  | cons j rest ih =>
    intro i
    by_cases hi : i < total <;>
      simp [traceFrom, hi, callPayloads_cons_call, callPayloads_append,
        callPayloads_sleep, callPayloads_nil, callPayloads_cons_sleep, ih]

/-- When the loop starts at index 1 with `total` equal to the number of jobs
(`i + jobs.length = total + 1` in general), its trace is the job calls
interspersed with single sleeps: a sleep after every job except the last. -/
theorem traceFrom_intersperse (delay_seconds total : Nat) :
    ∀ (jobs : List PromptData) (i : Nat), i + jobs.length = total + 1 →
      traceFrom delay_seconds total jobs i
        = List.intersperse (Event.sleep delay_seconds)
            (jobs.map fun j => Event.call (jobPayload j)) := by
  intro jobs
  induction jobs with
  | nil => intro i _; simp [traceFrom]
  | cons j rest ih =>
    intro i h
    cases rest with
    | nil =>
      have hi : ¬ i < total := by simp at h; omega
      simp [traceFrom, hi]
    | cons r t =>
      have hi : i < total := by simp at h; omega
      have h2 : (i + 1) + (r :: t).length = total + 1 := by simp at h ⊢; omega
      rw [traceFrom, if_pos hi, ih (i + 1) h2]
      simp [List.intersperse_cons_cons]

/-- Against a provider whose every call raises, the batch loop counts every
remaining job as failed and writes nothing. -/
theorem runJobs_allError (provider : Provider) (decode : Decoder)
    (delay_seconds total : Nat)
    (hp : ∀ i r, ∃ e, provider i r = Except.error e) :
    ∀ (jobs : List PromptData) (i succ fail : Nat) (st : World),
      (runJobs provider decode delay_seconds total jobs i succ fail st).1
        = (succ, fail + jobs.length)
      ∧ (runJobs provider decode delay_seconds total jobs i succ fail st).2.writes
        = st.writes := by
  intro jobs
  induction jobs with
  | nil => intro i succ fail st; simp [runJobs]
  | cons j rest ih =>
    intro i succ fail st
    obtain ⟨msg, hmsg⟩ := hp (callPayloads st.trace).length
      (requestBody j.prompt 1024 1024 8 (some 42))
    simp only [runJobs,
      generate_image_error provider decode j.prompt j.filename 1024 1024 8 (some 42) st msg hmsg]
    by_cases hi : i < total <;> simp [hi, ih] <;> omega

/-- Against a provider whose every call returns an empty image list, the
batch loop counts every remaining job as failed and writes nothing. -/
theorem runJobs_allEmpty (provider : Provider) (decode : Decoder)
    (delay_seconds total : Nat)
    (hp : ∀ i r, provider i r = Except.ok ⟨some []⟩) :
    ∀ (jobs : List PromptData) (i succ fail : Nat) (st : World),
      (runJobs provider decode delay_seconds total jobs i succ fail st).1
        = (succ, fail + jobs.length)
      ∧ (runJobs provider decode delay_seconds total jobs i succ fail st).2.writes
        = st.writes := by
  intro jobs
  induction jobs with
  | nil => intro i succ fail st; simp [runJobs]
  | cons j rest ih =>
    intro i succ fail st
    simp only [runJobs,
      generate_image_emptyImages provider decode j.prompt j.filename 1024 1024 8 (some 42) st
        (hp (callPayloads st.trace).length (requestBody j.prompt 1024 1024 8 (some 42)))]
    by_cases hi : i < total <;> simp [hi, ih] <;> omega

/-- Against a provider whose every call returns the single image `img`, the
batch loop counts every remaining job as succeeded and writes, in job order,
the decoded bytes of `img` to each job's output path. -/
theorem runJobs_allSuccess (provider : Provider) (decode : Decoder)
    (delay_seconds total : Nat) (img : String)
    (hp : ∀ i r, provider i r = Except.ok ⟨some [img]⟩) :
    ∀ (jobs : List PromptData) (i succ fail : Nat) (st : World),
      (runJobs provider decode delay_seconds total jobs i succ fail st).1
        = (succ + jobs.length, fail)
      ∧ (runJobs provider decode delay_seconds total jobs i succ fail st).2.writes
        = st.writes ++ jobs.map fun j => (outPath j.filename, decode img) := by
  intro jobs
  induction jobs with
  | nil => intro i succ fail st; simp [runJobs]
  | cons j rest ih =>
    intro i succ fail st
    simp only [runJobs,
      generate_image_success provider decode j.prompt j.filename 1024 1024 8 (some 42) st img []
        (hp (callPayloads st.trace).length (requestBody j.prompt 1024 1024 8 (some 42)))]
    by_cases hi : i < total <;> simp [hi, ih] <;> omega

/-- The spec-side client returns, in every branch, the input state extended
by exactly the one call attempt. -/
theorem specGenerate_state (provider : Provider) (decode : Decoder)
    (prompt : String) (width height : Int) (cfg_scale : Rat)
    (seed : Option Int) (st : World) :
    (SpecModel.generate provider decode prompt width height cfg_scale seed st).2
      = { st with trace :=
          st.trace ++ [Event.call (requestBody prompt width height cfg_scale seed)] } := by
  rcases h : provider (callPayloads st.trace).length
      (requestBody prompt width height cfg_scale seed) with msg | ⟨images⟩
  · simp [SpecModel.generate, h]
  · rcases images with _ | (_ | ⟨img, rest⟩) <;> simp [SpecModel.generate, h]

/-! ### The claims -/

/-- C1: for every batch run (any job list, any provider behaviour and hence
any mix of per-job outcomes), the counter pair returned by the batch loop
satisfies `succeeded + failed = number of jobs`: each job increments exactly
one of the two counters exactly once. -/
theorem claim_C1 (provider : Provider) (decode : Decoder) (delay_seconds : Nat)
    (jobs : List PromptData) (st : World) :
    (runBatch provider decode delay_seconds jobs st).1.1
      + (runBatch provider decode delay_seconds jobs st).1.2 = jobs.length := by
  have h := runJobs_counts provider decode delay_seconds jobs.length jobs 1 0 0 st
  simpa [runBatch] using h

/-- C2: against a provider whose every call raises, the batch is never
terminated early: the run returns `(succeeded, failed) = (0, number of jobs)`
and the trace shows one attempted call per job, in job order. -/
theorem claim_C2 (provider : Provider) (decode : Decoder) (delay_seconds : Nat)
    (jobs : List PromptData) (st : World)
    (hp : ∀ i r, ∃ e, provider i r = Except.error e) :
    (runBatch provider decode delay_seconds jobs st).1 = (0, jobs.length)
    ∧ callPayloads (runBatch provider decode delay_seconds jobs st).2.trace
        = callPayloads st.trace ++ jobs.map jobPayload := by
  constructor
  · have h := (runJobs_allError provider decode delay_seconds jobs.length hp jobs 1 0 0 st).1
    simpa [runBatch] using h
  · rw [runBatch, runJobs_trace, callPayloads_append, traceFrom_calls]

/-- C2 witness: a 3-job batch against an always-raising stub yields
`(0, 3)` and 3 attempted calls. -/
theorem claim_C2_witness :
    (∀ i r, ∃ e, raisingProvider i r = Except.error e)
    ∧ ((runBatch raisingProvider stubDecoder 2 jobs3 World.init).1 = (0, jobs3.length)
       ∧ callPayloads (runBatch raisingProvider stubDecoder 2 jobs3 World.init).2.trace
           = callPayloads World.init.trace ++ jobs3.map jobPayload) :=
  ⟨fun _ _ => ⟨"AccessDeniedException", rfl⟩,
   claim_C2 raisingProvider stubDecoder 2 jobs3 World.init
     (fun _ _ => ⟨"AccessDeniedException", rfl⟩)⟩

/-- C3: `runSingle` computes exactly the source's `generate_image`, and it
writes a file if and only if the outcome is `Success`: on `Success` the
decoded bytes are appended to the write log at `images/<filename>.png` and
that path is returned; on `Empty` or `Failure` the failure marker `none` is
returned and the write log is untouched. -/
theorem claim_C3 (provider : Provider) (decode : Decoder)
    (prompt filename : String) (width height : Int) (cfg_scale : Rat)
    (seed : Option Int) (st : World) :
    SpecModel.runSingle provider decode prompt filename width height cfg_scale seed st
      = generate_image provider decode prompt filename width height cfg_scale seed st
    ∧ (match SpecModel.generate provider decode prompt width height cfg_scale seed st with
       | (GenerationOutcome.success data, st1) =>
         generate_image provider decode prompt filename width height cfg_scale seed st
           = (some (outPath filename),
              { st1 with writes := st1.writes ++ [(outPath filename, data)] })
       | (GenerationOutcome.empty, st1) =>
         generate_image provider decode prompt filename width height cfg_scale seed st
           = (none, st1) ∧ st1.writes = st.writes
       | (GenerationOutcome.failure _, st1) =>
         generate_image provider decode prompt filename width height cfg_scale seed st
           = (none, st1) ∧ st1.writes = st.writes) := by
  refine ⟨runSingle_eq_generate_image provider decode prompt filename width height cfg_scale seed st, ?_⟩
  rcases h : provider (callPayloads st.trace).length
      (requestBody prompt width height cfg_scale seed) with msg | ⟨images⟩
  · simp [SpecModel.generate, h,
      generate_image_error provider decode prompt filename width height cfg_scale seed st msg h]
  · rcases images with _ | (_ | ⟨img, rest⟩)
    · simp [SpecModel.generate, h,
        generate_image_noImagesKey provider decode prompt filename width height cfg_scale seed st h]
    · simp [SpecModel.generate, h,
        generate_image_emptyImages provider decode prompt filename width height cfg_scale seed st h]
    · simp [SpecModel.generate, h,
        generate_image_success provider decode prompt filename width height cfg_scale seed st img rest h]

/-- C4: the client operation `generate` has no side effect beyond the single
network call: it leaves the write log untouched and appends exactly one call
attempt to the trace; persistence lives in `runSingle`, whose composition
with the client is exactly the source's `generate_image`. -/
theorem claim_C4 (provider : Provider) (decode : Decoder) (prompt : String)
    (width height : Int) (cfg_scale : Rat) (seed : Option Int) (st : World) :
    (SpecModel.generate provider decode prompt width height cfg_scale seed st).2.writes
      = st.writes
    ∧ (SpecModel.generate provider decode prompt width height cfg_scale seed st).2.trace
        = st.trace ++ [Event.call (requestBody prompt width height cfg_scale seed)]
    ∧ ∀ filename,
        SpecModel.runSingle provider decode prompt filename width height cfg_scale seed st
          = generate_image provider decode prompt filename width height cfg_scale seed st := by
  refine ⟨?_, ?_, fun filename =>
    runSingle_eq_generate_image provider decode prompt filename width height cfg_scale seed st⟩
  · rw [specGenerate_state]
  · rw [specGenerate_state]

/-- C5: for every batch of n jobs the inter-job sleep of exactly the
configured duration happens after each of the first n-1 jobs and not after
the last, unconditionally in the per-job outcome: the trace is the job call
attempts interspersed with single sleeps. -/
theorem claim_C5 (provider : Provider) (decode : Decoder) (delay_seconds : Nat)
    (jobs : List PromptData) (st : World) :
    (runBatch provider decode delay_seconds jobs st).2.trace
      = st.trace ++ List.intersperse (Event.sleep delay_seconds)
          (jobs.map fun j => Event.call (jobPayload j)) := by
  rw [runBatch, runJobs_trace,
    traceFrom_intersperse delay_seconds jobs.length jobs 1 (by omega)]

/-- C6: the provider request payload is exactly
`taskType "TEXT_IMAGE"`, `textToImageParams.text` the prompt, and an
`imageGenerationConfig` of `numberOfImages 1`, `quality "premium"`, width,
height, `cfgScale`, with a `seed` entry present if and only if a seed was
supplied. -/
theorem claim_C6 (prompt : String) (width height : Int) (cfg_scale : Rat)
    (seed : Option Int) :
    requestBody prompt width height cfg_scale seed
      = { taskType := "TEXT_IMAGE"
          textToImageParams := { text := prompt }
          imageGenerationConfig :=
            [("numberOfImages", ConfigValue.n 1),
             ("quality", ConfigValue.s "premium"),
             ("width", ConfigValue.n width),
             ("height", ConfigValue.n height),
             ("cfgScale", ConfigValue.f cfg_scale)]
            ++ (match seed with
                | some sd => [("seed", ConfigValue.n sd)]
                | none => []) }
    ∧ (("seed" ∈ (requestBody prompt width height cfg_scale seed).imageGenerationConfig.map
          Prod.fst) ↔ seed.isSome) := by
  constructor
  · cases seed <;> simp [requestBody]
  · cases seed <;> simp [requestBody]

/-- C7: against a provider stub answering with an empty image list, the
client outcome is `Empty`, `generate_image` returns the failure marker with
no write, and a whole batch of such calls is counted entirely as failed with
zero file writes. -/
theorem claim_C7 (provider : Provider) (decode : Decoder)
    (hp : ∀ i r, provider i r = Except.ok ⟨some []⟩)
    (prompt filename : String) (width height : Int) (cfg_scale : Rat)
    (seed : Option Int) (delay_seconds : Nat) (jobs : List PromptData)
    (st : World) :
    (SpecModel.generate provider decode prompt width height cfg_scale seed st).1
      = GenerationOutcome.empty
    ∧ (generate_image provider decode prompt filename width height cfg_scale seed st).1 = none
    ∧ (generate_image provider decode prompt filename width height cfg_scale seed st).2.writes
        = st.writes
    ∧ (runBatch provider decode delay_seconds jobs st).1 = (0, jobs.length)
    ∧ (runBatch provider decode delay_seconds jobs st).2.writes = st.writes := by
  have hg := generate_image_emptyImages provider decode prompt filename width height cfg_scale
    seed st (hp _ _)
  have hb := runJobs_allEmpty provider decode delay_seconds jobs.length hp jobs 1 0 0 st
  refine ⟨?_, ?_, ?_, ?_, ?_⟩
  · simp [SpecModel.generate, hp _ _]
  · rw [hg]
  · rw [hg]
  · simpa [runBatch] using hb.1
  · simpa [runBatch] using hb.2

/-- C7 witness: the empty-images stub on one request and on a 3-job batch. -/
theorem claim_C7_witness :
    (∀ i r, emptyImagesProvider i r = Except.ok ⟨some []⟩)
    ∧ ((SpecModel.generate emptyImagesProvider stubDecoder "x" 1024 1024 8 none World.init).1
         = GenerationOutcome.empty
       ∧ (generate_image emptyImagesProvider stubDecoder "x" "a" 1024 1024 8 none World.init).1
           = none
       ∧ (generate_image emptyImagesProvider stubDecoder "x" "a" 1024 1024 8 none
           World.init).2.writes = World.init.writes
       ∧ (runBatch emptyImagesProvider stubDecoder 2 jobs3 World.init).1 = (0, jobs3.length)
       ∧ (runBatch emptyImagesProvider stubDecoder 2 jobs3 World.init).2.writes
           = World.init.writes) :=
  ⟨fun _ _ => rfl,
   claim_C7 emptyImagesProvider stubDecoder (fun _ _ => rfl) "x" "a" 1024 1024 8 none 2 jobs3
     World.init⟩

/-- C8: a failed client construction returns from `main` with the world
untouched, before any job; whereas an exception raised during a remote call
is absorbed at the `generate` boundary: the client classifies it as
`Failure` with the stringified cause and `generate_image` returns `None`
with only the call attempt logged, never an uncaught fault (its return type
has no exception channel). -/
theorem claim_C8 (provider : Provider) (decode : Decoder) (e choice : String)
    (prompt filename : String) (width height : Int) (cfg_scale : Rat)
    (seed : Option Int) (msg : String) (st : World)
    (he : provider (callPayloads st.trace).length
        (requestBody prompt width height cfg_scale seed) = Except.error msg) :
    main (Except.error e) provider decode choice st = st
    ∧ (SpecModel.generate provider decode prompt width height cfg_scale seed st).1
        = GenerationOutcome.failure msg
    ∧ generate_image provider decode prompt filename width height cfg_scale seed st
        = (none, { st with trace :=
            st.trace ++ [Event.call (requestBody prompt width height cfg_scale seed)] }) := by
  refine ⟨rfl, ?_,
    generate_image_error provider decode prompt filename width height cfg_scale seed st msg he⟩
  simp [SpecModel.generate, he]

/-- C8 witness: a concrete initialization failure and a concrete raising
call, both absorbed as stated. -/
theorem claim_C8_witness :
    (raisingProvider (callPayloads World.init.trace).length (requestBody "x" 1024 1024 8 none)
        = Except.error "AccessDeniedException")
    ∧ (main (Except.error "NoCredentialsError") raisingProvider stubDecoder "2" World.init
         = World.init
       ∧ (SpecModel.generate raisingProvider stubDecoder "x" 1024 1024 8 none World.init).1
           = GenerationOutcome.failure "AccessDeniedException"
       ∧ generate_image raisingProvider stubDecoder "x" "a" 1024 1024 8 none World.init
           = (none, { World.init with trace :=
               World.init.trace ++ [Event.call (requestBody "x" 1024 1024 8 none)] })) :=
  ⟨rfl,
   claim_C8 raisingProvider stubDecoder "NoCredentialsError" "2" "x" "a" 1024 1024 8 none
     "AccessDeniedException" World.init rfl⟩

/-- C9: job order is preserved: for every provider the Nth attempted call
carries exactly the Nth job's payload (its prompt, under the fixed batch
parameters), under an all-success stub the Nth write goes to the Nth job's
output name, and the workshop run is the batch loop applied to the fixed,
immutable `prompts` configuration list. -/
theorem claim_C9 (provider : Provider) (decode : Decoder) (delay_seconds : Nat)
    (jobs : List PromptData) (st : World) (img : String)
    (hp : ∀ i r, provider i r = Except.ok ⟨some [img]⟩) :
    (∀ q : Provider, callPayloads (runBatch q decode delay_seconds jobs st).2.trace
        = callPayloads st.trace ++ jobs.map jobPayload)
    ∧ (runBatch provider decode delay_seconds jobs st).2.writes
        = st.writes ++ jobs.map (fun j => (outPath j.filename, decode img))
    ∧ generate_workshop_images provider decode delay_seconds st
        = runBatch provider decode delay_seconds prompts st := by
  refine ⟨fun q => ?_, ?_, rfl⟩
  · rw [runBatch, runJobs_trace, callPayloads_append, traceFrom_calls]
  · simpa [runBatch] using
      (runJobs_allSuccess provider decode delay_seconds jobs.length img hp jobs 1 0 0 st).2

/-- C9 witness: a 3-job batch against an all-success stub. -/
theorem claim_C9_witness :
    (∀ i r, okProvider i r = Except.ok ⟨some ["QQ=="]⟩)
    ∧ ((∀ q : Provider, callPayloads (runBatch q stubDecoder 2 jobs3 World.init).2.trace
          = callPayloads World.init.trace ++ jobs3.map jobPayload)
       ∧ (runBatch okProvider stubDecoder 2 jobs3 World.init).2.writes
           = World.init.writes ++ jobs3.map (fun j => (outPath j.filename, stubDecoder "QQ=="))
       ∧ generate_workshop_images okProvider stubDecoder 2 World.init
           = runBatch okProvider stubDecoder 2 prompts World.init) :=
  ⟨fun _ _ => rfl,
   claim_C9 okProvider stubDecoder 2 jobs3 World.init "QQ==" (fun _ _ => rfl)⟩

/-- C10: in interactive choice "3" the full batch runs exactly when the
single test generation returned success; on a failed test the run ends with
the test's world, the batch silently skipped, and the test itself performed
exactly one call attempt. -/
theorem claim_C10 (provider : Provider) (decode : Decoder) (st : World) :
    main (Except.ok ()) provider decode "3" st
      = (if (generate_single_test_image provider decode st).1
         then (generate_workshop_images provider decode 2
            (generate_single_test_image provider decode st).2).2
         else (generate_single_test_image provider decode st).2)
    ∧ (generate_single_test_image provider decode st).2.trace
        = st.trace ++ [Event.call (requestBody
            "A simple red t-shirt on white background, product photography"
            1024 1024 8 (some 123))] := by
  constructor
  · simp [main]
  · exact generate_image_trace provider decode _ "test_shirt" 1024 1024 8 (some 123) st

end NovaCanvas
